import Mathlib

/-!
Configuration resolution of `config/parser.go`.

A shallow embedding of `ParseConfig` and of the six package-level variables it
works on.  The function reads three ambient inputs: whether Clowder is enabled,
the configuration loaded by Clowder, and the process environment.  It writes
the package-level variables as it goes and ends in one of three ways: it
returns `nil`, it returns an error built by `fmt.Errorf`, or the Go runtime
stops it (indexing an empty slice).
-/

set_option autoImplicit false

namespace Config

/-! ## Constants (parser.go, lines 9-14) -/

/-- The default port the service will run on. -/
def defaultPort : String := "8000"

/-- The way the "sources-api" is named in Clowder. -/
def sourcesAppName : String := "sources-api"

/-- The path to the latest API version. -/
def sourcesV31Path : String := "api/sources/v3.1"

/-! ## Inputs

The record types of the Clowder client library are declared outside this
repository; only the fields `ParseConfig` reads are kept.  The loaded
configuration and its Kafka part are taken as present, as two sequences of
entries.  A Go `int` is an integer here: the function does no arithmetic on a
port, it only compares it with 0 and prints it. -/

/-- A dependency entry of the loaded configuration: `App`, `Hostname`, `Port` (a Go `int`). -/
structure DependencyEndpoint where
  App : String
  Hostname : String
  Port : Int
  deriving DecidableEq, Repr

/-- A broker entry of the loaded configuration: `Hostname` and `Port` (a Go `*int`, `none` is nil). -/
structure BrokerConfig where
  Hostname : String
  Port : Option Int
  deriving DecidableEq, Repr

/-- The Kafka part of the loaded configuration. -/
structure KafkaConfig where
  Brokers : List BrokerConfig
  deriving DecidableEq, Repr

/-- The loaded configuration, `v1.LoadedConfig`. -/
structure AppConfig where
  Endpoints : List DependencyEndpoint
  Kafka : KafkaConfig
  deriving DecidableEq, Repr

/-- Everything `ParseConfig` reads: `v1.IsClowderEnabled()`, `v1.LoadedConfig`
and `os.Getenv` (which yields the empty string for an unset variable). -/
structure Ambient where
  IsClowderEnabled : Bool
  LoadedConfig : AppConfig
  Getenv : String → String

/-! ## Package-level variables (parser.go, lines 16-27) -/

/-- The six package-level variables. -/
structure Globals where
  KafkaHost : String
  KafkaPort : Int
  KafkaUrl : String
  Port : String
  SourcesApiHealthUrl : String
  SourcesApiUrl : String
  deriving DecidableEq, Repr

/-- The variables at process start: Go zero values. -/
def Globals.zero : Globals :=
  { KafkaHost := "", KafkaPort := 0, KafkaUrl := "", Port := "",
    SourcesApiHealthUrl := "", SourcesApiUrl := "" }

/-- How a call of `ParseConfig` ends. -/
inductive Outcome where
  /-- The call returned `nil`. -/
  | ok
  /-- The call returned an error with this message. -/
  | error (msg : String)
  /-- The Go runtime stopped the call with this message. -/
  | runtimePanic (msg : String)
  deriving DecidableEq, Repr

/-! ## Formatting -/

/-- The verb `%d` of `fmt` applied to a Go `int`: decimal digits, with a leading minus sign
for a negative number. -/
def formatInt : Int → String
  | Int.ofNat n => Nat.repr n
  | Int.negSucc n => "-" ++ Nat.repr (n + 1)

/-- The message of `fmt.Errorf` on line 45, the application name put between double quotes. -/
def dependencyNotFoundMsg : String :=
  "could not find \x22" ++ sourcesAppName ++ "\x22 on Clowder\x27s config"

/-! ## `ParseConfig` -/

/-- The loop of lines 34-40: the first entry whose `App` equals `sourcesAppName`,
or `none` (a nil `sourceDep`) when the loop runs to its end. -/
def findSourceDep : List DependencyEndpoint → Option DependencyEndpoint
  | [] => none
  | dep :: rest => if dep.App = sourcesAppName then some dep else findSourceDep rest

/-- Lines 96-101: the listening port, taken from `PORT` or defaulted. -/
def resolvePort (w : Ambient) (g : Globals) : Globals :=
  let port := w.Getenv "PORT"
  if port = "" ∨ port = "0" then
    { g with Port := defaultPort }
  else
    { g with Port := port }

/-- The Clowder branch, lines 33-66.  The result is the variables as the branch leaves
them and, when the branch leaves the function early, how. -/
def parseClowder (w : Ambient) (g : Globals) : Globals × Option Outcome :=
  match findSourceDep w.LoadedConfig.Endpoints with
  | none => (g, some (Outcome.error dependencyNotFoundMsg))
  | some sourceDep =>
    let g1 := { g with SourcesApiHealthUrl :=
      "http://" ++ sourceDep.Hostname ++ ":" ++ formatInt sourceDep.Port ++ "/health" }
    let g2 := { g1 with SourcesApiUrl :=
      "http://" ++ sourceDep.Hostname ++ ":" ++ formatInt sourceDep.Port ++ "/" ++ sourcesV31Path }
    match w.LoadedConfig.Kafka.Brokers with
    | [] => (g2, some (Outcome.runtimePanic "runtime error: index out of range [0] with length 0"))
    | kafkaBroker :: _ =>
      let hostname := kafkaBroker.Hostname
      if hostname = "" then
        (g2, some (Outcome.error "configuration missing: Kafka hostname"))
      else
        match kafkaBroker.Port with
        | none => (g2, some (Outcome.error "configuration missing: Kafka port"))
        | some port =>
          if port = 0 then
            (g2, some (Outcome.error "configuration missing: Kafka port"))
          else
            ({ g2 with KafkaUrl := hostname ++ ":" ++ formatInt port }, none)

/-- The environment branch, lines 68-93. -/
def parseEnv (w : Ambient) (g : Globals) : Globals × Option Outcome :=
  let sourcesHost := w.Getenv "SOURCES_API_HOST"
  if sourcesHost = "" then
    (g, some (Outcome.error "configuration missing: Sources API host"))
  else
    let sourcesPort := w.Getenv "SOURCES_API_PORT"
    if sourcesPort = "" ∨ sourcesPort = "0" then
      (g, some (Outcome.error "configuration missing: Sources API port"))
    else
      let g1 := { g with SourcesApiHealthUrl := sourcesHost ++ ":" ++ sourcesPort ++ "/health" }
      let g2 := { g1 with SourcesApiUrl :=
        sourcesHost ++ ":" ++ sourcesPort ++ "/" ++ sourcesV31Path }
      let hostname := w.Getenv "QUEUE_HOST"
      if hostname = "" then
        (g2, some (Outcome.error "configuration missing: Kafka host"))
      else
        let port := w.Getenv "QUEUE_PORT"
        if port = "" ∨ port = "0" then
          (g2, some (Outcome.error "configuration missing: Kafka port"))
        else
          ({ g2 with KafkaUrl := hostname ++ ":" ++ port }, none)

/-- The function `ParseConfig`, lines 31-104: the variables after the call and how it ended. -/
def ParseConfig (w : Ambient) (g : Globals) : Globals × Outcome :=
  let r := if w.IsClowderEnabled then parseClowder w g else parseEnv w g
  match r.2 with
  | some early => (r.1, early)
  | none => (resolvePort w r.1, Outcome.ok)

/-! ## Concrete inputs -/

/-- An environment given by a list of bindings; a variable not listed is unset. -/
def envOf (bindings : List (String × String)) (name : String) : String :=
  match bindings.find? (fun b => b.1 = name) with
  | some b => b.2
  | none => ""

/-- Clowder enabled, with the given dependencies and brokers, and the given environment. -/
def clowderInput (deps : List DependencyEndpoint) (brokers : List BrokerConfig)
    (env : List (String × String)) : Ambient :=
  { IsClowderEnabled := true,
    LoadedConfig := { Endpoints := deps, Kafka := { Brokers := brokers } },
    Getenv := envOf env }

/-- Clowder disabled, with the given environment. -/
def envInput (env : List (String × String)) : Ambient :=
  { IsClowderEnabled := false,
    LoadedConfig := { Endpoints := [], Kafka := { Brokers := [] } },
    Getenv := envOf env }

end Config

namespace Config

/-! ## Auxiliary facts -/

theorem dependencyNotFoundMsg_eq :
    dependencyNotFoundMsg = "could not find \x22sources-api\x22 on Clowder\x27s config" := by
  decide

/-- Appending the path of line 14 after a slash gives the literal ending of the base URL. -/
theorem append_slash_path (s : String) :
    s ++ "/" ++ sourcesV31Path = s ++ "/api/sources/v3.1" := by
  rw [String.append_assoc]
  have h : "/" ++ sourcesV31Path = "/api/sources/v3.1" := by decide
  rw [h]

theorem findSourceDep_eq_none {deps : List DependencyEndpoint}
    (h : ∀ e ∈ deps, e.App ≠ "sources-api") : findSourceDep deps = none := by
  induction deps with
  | nil => rfl
  | cons d rest ih =>
    have hd : d.App ≠ sourcesAppName := h d (List.mem_cons_self d rest)
    have hr : ∀ e ∈ rest, e.App ≠ "sources-api" := fun e he => h e (List.mem_cons_of_mem d he)
    simp [findSourceDep, hd, ih hr]

theorem findSourceDep_first (pre post : List DependencyEndpoint) (d : DependencyEndpoint)
    (hpre : ∀ e ∈ pre, e.App ≠ "sources-api") (hd : d.App = "sources-api") :
    findSourceDep (pre ++ d :: post) = some d := by
  induction pre with
  | nil =>
    have hd1 : d.App = sourcesAppName := hd
    simp [findSourceDep, hd1]
  | cons p rest ih =>
    have hp : p.App ≠ sourcesAppName := hpre p (List.mem_cons_self p rest)
    have hr : ∀ e ∈ rest, e.App ≠ "sources-api" :=
      fun e he => hpre e (List.mem_cons_of_mem p he)
    simp [findSourceDep, hp, ih hr]

/-- A dependency list with an entry named "sources-api" splits at the first such entry. -/
theorem exists_first_sourceDep (deps : List DependencyEndpoint)
    (h : ∃ e ∈ deps, e.App = "sources-api") :
    ∃ pre d post, deps = pre ++ d :: post ∧ (∀ e ∈ pre, e.App ≠ "sources-api") ∧
      d.App = "sources-api" := by
  induction deps with
  | nil => simp at h
  | cons x rest ih =>
    by_cases hx : x.App = "sources-api"
    · exact ⟨[], x, rest, rfl, by simp, hx⟩
    · have h1 : ∃ e ∈ rest, e.App = "sources-api" := by
        obtain ⟨e, he, hea⟩ := h
        rcases List.mem_cons.mp he with rfl | hmem
        · exact absurd hea hx
        · exact ⟨e, hmem, hea⟩
      obtain ⟨pre, d, post, hsplit, hpre, hd⟩ := ih h1
      refine ⟨x :: pre, d, post, by simp [hsplit], ?_, hd⟩
      intro e he
      rcases List.mem_cons.mp he with rfl | hmem
      · exact hx
      · exact hpre e hmem

theorem findSourceDep_isSome {deps : List DependencyEndpoint}
    (h : ∃ e ∈ deps, e.App = "sources-api") : ∃ d, findSourceDep deps = some d := by
  obtain ⟨pre, d, post, hsplit, hpre, hd⟩ := exists_first_sourceDep deps h
  exact ⟨d, by rw [hsplit]; exact findSourceDep_first pre post d hpre hd⟩

/-- The Clowder branch never leaves the function early with success. -/
theorem parseClowder_ne_ok (w : Ambient) (g : Globals) :
    (parseClowder w g).2 ≠ some Outcome.ok := by
  unfold parseClowder
  cases hf : findSourceDep w.LoadedConfig.Endpoints with
  | none => simp
  | some d =>
    cases hb : w.LoadedConfig.Kafka.Brokers with
    | nil => simp
    | cons b rest =>
      by_cases hh : b.Hostname = ""
      · simp [hh]
      · cases hp : b.Port with
        | none => simp [hh, hp]
        | some p => by_cases h0 : p = 0 <;> simp [hh, hp, h0]

/-- The environment branch never leaves the function early with success. -/
theorem parseEnv_ne_ok (w : Ambient) (g : Globals) :
    (parseEnv w g).2 ≠ some Outcome.ok := by
  unfold parseEnv
  simp only []
  split_ifs <;> simp

/-- Either branch, as `ParseConfig` selects it, never leaves the function early with success. -/
theorem branch_ne_ok (w : Ambient) (g : Globals) :
    (if w.IsClowderEnabled = true then parseClowder w g else parseEnv w g).2
      ≠ some Outcome.ok := by
  split_ifs
  · exact parseClowder_ne_ok w g
  · exact parseEnv_ne_ok w g

/-- No statement of `ParseConfig` assigns `KafkaHost` or `KafkaPort`: both are, after every
call and however it ends, what they were before. -/
theorem ParseConfig_keeps_KafkaHost_KafkaPort (w : Ambient) (g : Globals) :
    (ParseConfig w g).1.KafkaHost = g.KafkaHost ∧ (ParseConfig w g).1.KafkaPort = g.KafkaPort := by
  by_cases hP : w.Getenv "PORT" = "" ∨ w.Getenv "PORT" = "0" <;>
  by_cases hc : w.IsClowderEnabled = true
  all_goals first
    | (cases hf : findSourceDep w.LoadedConfig.Endpoints with
        | none => simp [ParseConfig, parseClowder, hc, hf]
        | some d =>
          cases hb : w.LoadedConfig.Kafka.Brokers with
          | nil => simp [ParseConfig, parseClowder, hc, hf, hb]
          | cons b rest =>
            by_cases hh : b.Hostname = ""
            · simp [ParseConfig, parseClowder, hc, hf, hb, hh]
            · cases hp : b.Port with
              | none => simp [ParseConfig, parseClowder, hc, hf, hb, hh, hp]
              | some p =>
                by_cases h0 : p = 0 <;>
                  simp [ParseConfig, parseClowder, resolvePort, hc, hf, hb, hh, hp, h0, hP])
    | (by_cases h1 : w.Getenv "SOURCES_API_HOST" = "" <;>
        by_cases h2 : w.Getenv "SOURCES_API_PORT" = "" ∨ w.Getenv "SOURCES_API_PORT" = "0" <;>
        by_cases h3 : w.Getenv "QUEUE_HOST" = "" <;>
        by_cases h4 : w.Getenv "QUEUE_PORT" = "" ∨ w.Getenv "QUEUE_PORT" = "0" <;>
        simp [ParseConfig, parseEnv, resolvePort, hc, h1, h2, h3, h4, hP])

/-- The call is stopped by the runtime exactly in platform mode with a "sources-api"
dependency and an empty broker list. -/
theorem ParseConfig_runtimePanic_iff (w : Ambient) (g : Globals) :
    (∃ msg, (ParseConfig w g).2 = Outcome.runtimePanic msg) ↔
      (w.IsClowderEnabled = true ∧ (∃ d, findSourceDep w.LoadedConfig.Endpoints = some d) ∧
        w.LoadedConfig.Kafka.Brokers = []) := by
  by_cases hc : w.IsClowderEnabled = true
  · cases hf : findSourceDep w.LoadedConfig.Endpoints with
    | none => simp [ParseConfig, parseClowder, hc, hf]
    | some d =>
      cases hb : w.LoadedConfig.Kafka.Brokers with
      | nil => simp [ParseConfig, parseClowder, hc, hf, hb]
      | cons b rest =>
        by_cases hh : b.Hostname = ""
        · simp [ParseConfig, parseClowder, hc, hf, hb, hh]
        · cases hp : b.Port with
          | none => simp [ParseConfig, parseClowder, hc, hf, hb, hh, hp]
          | some p =>
            by_cases h0 : p = 0 <;>
              simp [ParseConfig, parseClowder, hc, hf, hb, hh, hp, h0]
  · by_cases h1 : w.Getenv "SOURCES_API_HOST" = "" <;>
      by_cases h2 : w.Getenv "SOURCES_API_PORT" = "" ∨ w.Getenv "SOURCES_API_PORT" = "0" <;>
      by_cases h3 : w.Getenv "QUEUE_HOST" = "" <;>
      by_cases h4 : w.Getenv "QUEUE_PORT" = "" ∨ w.Getenv "QUEUE_PORT" = "0" <;>
      simp [ParseConfig, parseEnv, hc, h1, h2, h3, h4]

/-! ## Claims -/

/-- C1. Platform mode, success: when the dependency list is `pre ++ d :: post` with `d` the
first entry named "sources-api" (none in `pre`, anything in `post`) and the first broker `b`
has a non-empty hostname and a port `kp` that is present and not zero, `ParseConfig` returns
no error and leaves the health URL `http://h:p/health`, the base URL
`http://h:p/api/sources/v3.1` and the Kafka URL `kh:kp`, with `h`, `p` taken from `d` and
`kh`, `kp` from `b`, the ports in decimal. -/
theorem platform_success (pre post : List DependencyEndpoint) (d : DependencyEndpoint)
    (b : BrokerConfig) (rest : List BrokerConfig) (kp : Int) (getenv : String → String)
    (g : Globals)
    (hpre : ∀ e ∈ pre, e.App ≠ "sources-api") (hd : d.App = "sources-api")
    (hhost : b.Hostname ≠ "") (hport : b.Port = some kp) (hkp : kp ≠ 0) :
    (ParseConfig ⟨true, ⟨pre ++ d :: post, ⟨b :: rest⟩⟩, getenv⟩ g).2 = Outcome.ok ∧
    (ParseConfig ⟨true, ⟨pre ++ d :: post, ⟨b :: rest⟩⟩, getenv⟩ g).1.SourcesApiHealthUrl
      = "http://" ++ d.Hostname ++ ":" ++ formatInt d.Port ++ "/health" ∧
    (ParseConfig ⟨true, ⟨pre ++ d :: post, ⟨b :: rest⟩⟩, getenv⟩ g).1.SourcesApiUrl
      = "http://" ++ d.Hostname ++ ":" ++ formatInt d.Port ++ "/api/sources/v3.1" ∧
    (ParseConfig ⟨true, ⟨pre ++ d :: post, ⟨b :: rest⟩⟩, getenv⟩ g).1.KafkaUrl
      = b.Hostname ++ ":" ++ formatInt kp := by
  have hf := findSourceDep_first pre post d hpre hd
  by_cases hP : getenv "PORT" = "" ∨ getenv "PORT" = "0" <;>
    simp [ParseConfig, parseClowder, resolvePort, hf, hhost, hport, hkp, hP, append_slash_path]

/-- Witness of C1: dependency (sources-api, svc, 443) and broker (kafka1, 9092). -/
theorem platform_success_witness :
    (ParseConfig (clowderInput [⟨"sources-api", "svc", 443⟩] [⟨"kafka1", some 9092⟩] [])
        Globals.zero).2 = Outcome.ok ∧
    (ParseConfig (clowderInput [⟨"sources-api", "svc", 443⟩] [⟨"kafka1", some 9092⟩] [])
        Globals.zero).1.SourcesApiHealthUrl = "http://svc:443/health" ∧
    (ParseConfig (clowderInput [⟨"sources-api", "svc", 443⟩] [⟨"kafka1", some 9092⟩] [])
        Globals.zero).1.SourcesApiUrl = "http://svc:443/api/sources/v3.1" ∧
    (ParseConfig (clowderInput [⟨"sources-api", "svc", 443⟩] [⟨"kafka1", some 9092⟩] [])
        Globals.zero).1.KafkaUrl = "kafka1:9092" :=
  platform_success [] [] ⟨"sources-api", "svc", 443⟩ ⟨"kafka1", some 9092⟩ [] 9092 (envOf [])
    Globals.zero (by simp) rfl (by decide) rfl (by decide)

/-- C2. Environment mode, errors: with Clowder disabled, `ParseConfig` returns an error exactly
when `SOURCES_API_HOST` is empty, or `SOURCES_API_PORT` is empty or "0", or `QUEUE_HOST` is
empty, or `QUEUE_PORT` is empty or "0" (and returns no error otherwise); the message names the
first failing field in the order host, port of the Sources API, then host, port of Kafka. -/
theorem env_error (w : Ambient) (g : Globals) (hc : w.IsClowderEnabled = false) :
    ((∃ msg, (ParseConfig w g).2 = Outcome.error msg) ↔
      (w.Getenv "SOURCES_API_HOST" = "" ∨
       (w.Getenv "SOURCES_API_PORT" = "" ∨ w.Getenv "SOURCES_API_PORT" = "0") ∨
       w.Getenv "QUEUE_HOST" = "" ∨
       (w.Getenv "QUEUE_PORT" = "" ∨ w.Getenv "QUEUE_PORT" = "0"))) ∧
    (ParseConfig w g).2 =
      (if w.Getenv "SOURCES_API_HOST" = "" then
        Outcome.error "configuration missing: Sources API host"
      else if w.Getenv "SOURCES_API_PORT" = "" ∨ w.Getenv "SOURCES_API_PORT" = "0" then
        Outcome.error "configuration missing: Sources API port"
      else if w.Getenv "QUEUE_HOST" = "" then
        Outcome.error "configuration missing: Kafka host"
      else if w.Getenv "QUEUE_PORT" = "" ∨ w.Getenv "QUEUE_PORT" = "0" then
        Outcome.error "configuration missing: Kafka port"
      else Outcome.ok) := by
  have hout : (ParseConfig w g).2 =
      (if w.Getenv "SOURCES_API_HOST" = "" then
        Outcome.error "configuration missing: Sources API host"
      else if w.Getenv "SOURCES_API_PORT" = "" ∨ w.Getenv "SOURCES_API_PORT" = "0" then
        Outcome.error "configuration missing: Sources API port"
      else if w.Getenv "QUEUE_HOST" = "" then
        Outcome.error "configuration missing: Kafka host"
      else if w.Getenv "QUEUE_PORT" = "" ∨ w.Getenv "QUEUE_PORT" = "0" then
        Outcome.error "configuration missing: Kafka port"
      else Outcome.ok) := by
    simp only [ParseConfig, parseEnv, hc]
    split_ifs <;> simp_all
  refine ⟨?_, hout⟩
  rw [hout]
  by_cases h1 : w.Getenv "SOURCES_API_HOST" = ""
  · simp [h1]
  · by_cases h2 : w.Getenv "SOURCES_API_PORT" = "" ∨ w.Getenv "SOURCES_API_PORT" = "0"
    · simp [h1, h2]
    · by_cases h3 : w.Getenv "QUEUE_HOST" = ""
      · simp [h1, h2, h3]
      · by_cases h4 : w.Getenv "QUEUE_PORT" = "" ∨ w.Getenv "QUEUE_PORT" = "0"
        · simp [h1, h2, h3, h4]
        · simp [h1, h2, h3, h4]

/-- Witness of C2: the Sources API host is set, its port is "0", and both Kafka variables are
unset; the error names the Sources API port, the first failing field. -/
theorem env_error_witness :
    (envInput [("SOURCES_API_HOST", "api"), ("SOURCES_API_PORT", "0")]).IsClowderEnabled = false ∧
    (ParseConfig (envInput [("SOURCES_API_HOST", "api"), ("SOURCES_API_PORT", "0")])
        Globals.zero).2 = Outcome.error "configuration missing: Sources API port" :=
  ⟨rfl, (env_error (envInput [("SOURCES_API_HOST", "api"), ("SOURCES_API_PORT", "0")])
    Globals.zero rfl).2.trans (by decide)⟩

/-- C3. Environment mode, success: with Clowder disabled and the four variables non-empty, the
two ports different from "0", `ParseConfig` returns no error and leaves the health URL
`sh:sp/health`, the base URL `sh:sp/api/sources/v3.1` and the Kafka URL `qh:qp`, the values
copied as they are and nothing put in front; the listening port is "8000" when `PORT` is
empty or "0" and the value of `PORT` otherwise. -/
theorem env_success (w : Ambient) (g : Globals) (hc : w.IsClowderEnabled = false)
    (hsh : w.Getenv "SOURCES_API_HOST" ≠ "")
    (hsp : w.Getenv "SOURCES_API_PORT" ≠ "") (hsp0 : w.Getenv "SOURCES_API_PORT" ≠ "0")
    (hqh : w.Getenv "QUEUE_HOST" ≠ "")
    (hqp : w.Getenv "QUEUE_PORT" ≠ "") (hqp0 : w.Getenv "QUEUE_PORT" ≠ "0") :
    (ParseConfig w g).2 = Outcome.ok ∧
    (ParseConfig w g).1.SourcesApiHealthUrl
      = w.Getenv "SOURCES_API_HOST" ++ ":" ++ w.Getenv "SOURCES_API_PORT" ++ "/health" ∧
    (ParseConfig w g).1.SourcesApiUrl
      = w.Getenv "SOURCES_API_HOST" ++ ":" ++ w.Getenv "SOURCES_API_PORT"
          ++ "/api/sources/v3.1" ∧
    (ParseConfig w g).1.KafkaUrl = w.Getenv "QUEUE_HOST" ++ ":" ++ w.Getenv "QUEUE_PORT" ∧
    (ParseConfig w g).1.Port
      = (if w.Getenv "PORT" = "" ∨ w.Getenv "PORT" = "0" then "8000" else w.Getenv "PORT") := by
  by_cases hP : w.Getenv "PORT" = "" ∨ w.Getenv "PORT" = "0" <;>
    simp [ParseConfig, parseEnv, resolvePort, hc, hsh, hsp, hsp0, hqh, hqp, hqp0, hP,
      append_slash_path, defaultPort]

/-- Witness of C3: api, 8080, mq, 9092 and `PORT` unset. -/
theorem env_success_witness :
    (ParseConfig (envInput [("SOURCES_API_HOST", "api"), ("SOURCES_API_PORT", "8080"),
        ("QUEUE_HOST", "mq"), ("QUEUE_PORT", "9092")]) Globals.zero).2 = Outcome.ok ∧
    (ParseConfig (envInput [("SOURCES_API_HOST", "api"), ("SOURCES_API_PORT", "8080"),
        ("QUEUE_HOST", "mq"), ("QUEUE_PORT", "9092")]) Globals.zero).1.SourcesApiHealthUrl
      = "api:8080/health" ∧
    (ParseConfig (envInput [("SOURCES_API_HOST", "api"), ("SOURCES_API_PORT", "8080"),
        ("QUEUE_HOST", "mq"), ("QUEUE_PORT", "9092")]) Globals.zero).1.SourcesApiUrl
      = "api:8080/api/sources/v3.1" ∧
    (ParseConfig (envInput [("SOURCES_API_HOST", "api"), ("SOURCES_API_PORT", "8080"),
        ("QUEUE_HOST", "mq"), ("QUEUE_PORT", "9092")]) Globals.zero).1.KafkaUrl = "mq:9092" ∧
    (ParseConfig (envInput [("SOURCES_API_HOST", "api"), ("SOURCES_API_PORT", "8080"),
        ("QUEUE_HOST", "mq"), ("QUEUE_PORT", "9092")]) Globals.zero).1.Port = "8000" :=
  env_success (envInput [("SOURCES_API_HOST", "api"), ("SOURCES_API_PORT", "8080"),
      ("QUEUE_HOST", "mq"), ("QUEUE_PORT", "9092")]) Globals.zero rfl
    (by decide) (by decide) (by decide) (by decide) (by decide) (by decide)

/-- C4. Platform mode, missing dependency: when no entry of the dependency list is named
"sources-api" (the empty list included), `ParseConfig` returns the error
`could not find "sources-api" on Clowder's config` for every broker list, the empty one
included, so no broker entry is read; the variables are left as they were. -/
theorem platform_missing_dependency (deps : List DependencyEndpoint)
    (brokers : List BrokerConfig) (getenv : String → String) (g : Globals)
    (hnone : ∀ e ∈ deps, e.App ≠ "sources-api") :
    ParseConfig ⟨true, ⟨deps, ⟨brokers⟩⟩, getenv⟩ g
      = (g, Outcome.error "could not find \x22sources-api\x22 on Clowder\x27s config") := by
  have hf := findSourceDep_eq_none hnone
  simp [ParseConfig, parseClowder, hf, dependencyNotFoundMsg_eq]

/-- Witness of C4: one dependency with another name and an empty broker list. -/
theorem platform_missing_dependency_witness :
    ParseConfig (clowderInput [⟨"rbac", "rbac-svc", 8080⟩] [] []) Globals.zero
      = (Globals.zero,
          Outcome.error "could not find \x22sources-api\x22 on Clowder\x27s config") :=
  platform_missing_dependency [⟨"rbac", "rbac-svc", 8080⟩] [] (envOf []) Globals.zero
    (by decide)

/-- C5. Platform mode, bad broker: with a "sources-api" dependency and a broker list
`b :: rest`, an empty hostname of `b` gives the error "configuration missing: Kafka hostname"
(whatever the port of `b`); otherwise a port of `b` that is absent or 0 gives
"configuration missing: Kafka port"; and the result is the same for every `rest`. -/
theorem platform_bad_broker (deps : List DependencyEndpoint) (b : BrokerConfig)
    (rest : List BrokerConfig) (getenv : String → String) (g : Globals)
    (hdep : ∃ e ∈ deps, e.App = "sources-api") :
    (b.Hostname = "" →
      (ParseConfig ⟨true, ⟨deps, ⟨b :: rest⟩⟩, getenv⟩ g).2
        = Outcome.error "configuration missing: Kafka hostname") ∧
    (b.Hostname ≠ "" → (b.Port = none ∨ b.Port = some 0) →
      (ParseConfig ⟨true, ⟨deps, ⟨b :: rest⟩⟩, getenv⟩ g).2
        = Outcome.error "configuration missing: Kafka port") ∧
    (∀ others : List BrokerConfig,
      ParseConfig ⟨true, ⟨deps, ⟨b :: rest⟩⟩, getenv⟩ g
        = ParseConfig ⟨true, ⟨deps, ⟨b :: others⟩⟩, getenv⟩ g) := by
  obtain ⟨d, hf⟩ := findSourceDep_isSome hdep
  refine ⟨?_, ?_, ?_⟩
  · intro hh
    simp [ParseConfig, parseClowder, hf, hh]
  · intro hh hp
    rcases hp with hp | hp <;> simp [ParseConfig, parseClowder, hf, hh, hp]
  · intro others
    simp [ParseConfig, parseClowder, resolvePort]

/-- Witness of C5: the first broker has neither hostname nor port, a second one is complete;
the error names the hostname. -/
theorem platform_bad_broker_witness :
    (ParseConfig (clowderInput [⟨"sources-api", "svc", 443⟩]
        [⟨"", none⟩, ⟨"kafka2", some 9092⟩] []) Globals.zero).2
      = Outcome.error "configuration missing: Kafka hostname" :=
  (platform_bad_broker [⟨"sources-api", "svc", 443⟩] ⟨"", none⟩ [⟨"kafka2", some 9092⟩]
    (envOf []) Globals.zero ⟨⟨"sources-api", "svc", 443⟩, by simp, rfl⟩).1 rfl

/-- C6. Listening port: after every call of `ParseConfig` that returns no error, in either
mode, `Port` is "8000" when `PORT` is empty or exactly "0", and is the value of `PORT`,
character for character, otherwise; so `Port` is neither empty nor "0". -/
theorem listening_port (w : Ambient) (g : Globals) (hok : (ParseConfig w g).2 = Outcome.ok) :
    (ParseConfig w g).1.Port
      = (if w.Getenv "PORT" = "" ∨ w.Getenv "PORT" = "0" then "8000" else w.Getenv "PORT") ∧
    (ParseConfig w g).1.Port ≠ "" ∧ (ParseConfig w g).1.Port ≠ "0" := by
  have hport : (ParseConfig w g).1.Port
      = (if w.Getenv "PORT" = "" ∨ w.Getenv "PORT" = "0" then "8000"
          else w.Getenv "PORT") := by
    have hne := branch_ne_ok w g
    unfold ParseConfig at hok ⊢
    generalize (if w.IsClowderEnabled = true then parseClowder w g else parseEnv w g) = r
      at hok hne ⊢
    obtain ⟨g1, o⟩ := r
    cases o with
    | some early =>
      simp only at hok
      subst hok
      exact absurd rfl hne
    | none =>
      by_cases hP : w.Getenv "PORT" = "" ∨ w.Getenv "PORT" = "0" <;>
        simp [resolvePort, hP, defaultPort]
  refine ⟨hport, ?_, ?_⟩
  · rw [hport]
    by_cases hP : w.Getenv "PORT" = "" ∨ w.Getenv "PORT" = "0"
    · simp [hP]
    · simp only [hP, if_false]
      exact fun h => hP (Or.inl h)
  · rw [hport]
    by_cases hP : w.Getenv "PORT" = "" ∨ w.Getenv "PORT" = "0"
    · simp only [hP, if_true]
      decide
    · simp only [hP, if_false]
      exact fun h => hP (Or.inr h)

/-- Witness of C6: platform mode with `PORT` set to "00", which is kept as it is. -/
theorem listening_port_witness :
    (ParseConfig (clowderInput [⟨"sources-api", "svc", 443⟩] [⟨"kafka1", some 9092⟩]
        [("PORT", "00")]) Globals.zero).2 = Outcome.ok ∧
    (ParseConfig (clowderInput [⟨"sources-api", "svc", 443⟩] [⟨"kafka1", some 9092⟩]
        [("PORT", "00")]) Globals.zero).1.Port = "00" :=
  ⟨by decide, (listening_port (clowderInput [⟨"sources-api", "svc", 443⟩]
    [⟨"kafka1", some 9092⟩] [("PORT", "00")]) Globals.zero (by decide)).1.trans (by decide)⟩

/-- C7, as stated, fails: with a "sources-api" dependency and a first broker without a
hostname, `ParseConfig` returns the Kafka hostname error and has by then overwritten the two
Sources API variables. -/
theorem error_leaves_partial_result :
    (ParseConfig (clowderInput [⟨"sources-api", "svc", 443⟩] [⟨"", some 9092⟩] [])
        Globals.zero).2 = Outcome.error "configuration missing: Kafka hostname" ∧
    (ParseConfig (clowderInput [⟨"sources-api", "svc", 443⟩] [⟨"", some 9092⟩] [])
        Globals.zero).1.SourcesApiHealthUrl = "http://svc:443/health" ∧
    (ParseConfig (clowderInput [⟨"sources-api", "svc", 443⟩] [⟨"", some 9092⟩] [])
        Globals.zero).1.SourcesApiUrl = "http://svc:443/api/sources/v3.1" ∧
    (ParseConfig (clowderInput [⟨"sources-api", "svc", 443⟩] [⟨"", some 9092⟩] [])
        Globals.zero).1 ≠ Globals.zero := by
  decide

/-- C7, amended. When `ParseConfig` returns an error, `KafkaHost`, `KafkaPort`, `KafkaUrl` and
`Port` are as before the call.  When the error is not one of the three Kafka errors (so it is
the missing dependency or a Sources API host or port error) the two Sources API variables are
as before as well.  When it is a Kafka error, the two Sources API variables hold the URLs just
built: from the first "sources-api" dependency in platform mode, from `SOURCES_API_HOST` and
`SOURCES_API_PORT` in environment mode. -/
theorem error_leaves_state (w : Ambient) (g : Globals) (msg : String)
    (herr : (ParseConfig w g).2 = Outcome.error msg) :
    ((ParseConfig w g).1.KafkaHost = g.KafkaHost ∧ (ParseConfig w g).1.KafkaPort = g.KafkaPort ∧
      (ParseConfig w g).1.KafkaUrl = g.KafkaUrl ∧ (ParseConfig w g).1.Port = g.Port) ∧
    ((msg ≠ "configuration missing: Kafka hostname" ∧ msg ≠ "configuration missing: Kafka host" ∧
        msg ≠ "configuration missing: Kafka port") → (ParseConfig w g).1 = g) ∧
    ((msg = "configuration missing: Kafka hostname" ∨ msg = "configuration missing: Kafka host" ∨
        msg = "configuration missing: Kafka port") →
      (w.IsClowderEnabled = true →
        ∃ d, findSourceDep w.LoadedConfig.Endpoints = some d ∧
          (ParseConfig w g).1.SourcesApiHealthUrl
            = "http://" ++ d.Hostname ++ ":" ++ formatInt d.Port ++ "/health" ∧
          (ParseConfig w g).1.SourcesApiUrl
            = "http://" ++ d.Hostname ++ ":" ++ formatInt d.Port ++ "/api/sources/v3.1") ∧
      (w.IsClowderEnabled = false →
        (ParseConfig w g).1.SourcesApiHealthUrl
          = w.Getenv "SOURCES_API_HOST" ++ ":" ++ w.Getenv "SOURCES_API_PORT" ++ "/health" ∧
        (ParseConfig w g).1.SourcesApiUrl
          = w.Getenv "SOURCES_API_HOST" ++ ":" ++ w.Getenv "SOURCES_API_PORT"
              ++ "/api/sources/v3.1")) := by
  have hmsg := dependencyNotFoundMsg_eq
  by_cases hc : w.IsClowderEnabled = true
  · cases hf : findSourceDep w.LoadedConfig.Endpoints with
    | none =>
      simp only [ParseConfig, parseClowder, hc, hf, if_true] at herr ⊢
      simp only [Outcome.error.injEq] at herr
      subst herr
      rw [hmsg]
      simp
    | some d =>
      cases hb : w.LoadedConfig.Kafka.Brokers with
      | nil => simp [ParseConfig, parseClowder, hc, hf, hb] at herr
      | cons b rest =>
        by_cases hh : b.Hostname = ""
        · simp only [ParseConfig, parseClowder, hc, hf, hb, hh, if_true] at herr ⊢
          simp only [Outcome.error.injEq] at herr
          subst herr
          simp [append_slash_path]
        · cases hp : b.Port with
          | none =>
            simp only [ParseConfig, parseClowder, hc, hf, hb, hh, hp, if_true, if_false]
              at herr ⊢
            simp only [Outcome.error.injEq] at herr
            subst herr
            simp [append_slash_path]
          | some p =>
            by_cases h0 : p = 0
            · simp only [ParseConfig, parseClowder, hc, hf, hb, hh, hp, h0, if_true, if_false]
                at herr ⊢
              simp only [Outcome.error.injEq] at herr
              subst herr
              simp [append_slash_path]
            · simp [ParseConfig, parseClowder, hc, hf, hb, hh, hp, h0] at herr
  · have hc1 : w.IsClowderEnabled = false := by simpa using hc
    by_cases h1 : w.Getenv "SOURCES_API_HOST" = ""
    · simp only [ParseConfig, parseEnv, hc1, h1, if_true] at herr ⊢
      simp at herr
      subst herr
      simp
    · by_cases h2 : w.Getenv "SOURCES_API_PORT" = "" ∨ w.Getenv "SOURCES_API_PORT" = "0"
      · simp only [ParseConfig, parseEnv, hc1, h1, h2, if_true, if_false] at herr ⊢
        simp at herr
        subst herr
        simp
      · by_cases h3 : w.Getenv "QUEUE_HOST" = ""
        · simp only [ParseConfig, parseEnv, hc1, h1, h2, h3, if_true, if_false] at herr ⊢
          simp at herr
          subst herr
          simp [append_slash_path]
        · by_cases h4 : w.Getenv "QUEUE_PORT" = "" ∨ w.Getenv "QUEUE_PORT" = "0"
          · simp only [ParseConfig, parseEnv, hc1, h1, h2, h3, h4, if_true, if_false] at herr ⊢
            simp at herr
            subst herr
            simp [append_slash_path]
          · simp [ParseConfig, parseEnv, hc1, h1, h2, h3, h4] at herr

/-- Witness of the amended C7: environment mode with the Sources API variables set and
`QUEUE_HOST` unset; the Kafka variables and `Port` are as before the call. -/
theorem error_leaves_state_witness :
    (ParseConfig (envInput [("SOURCES_API_HOST", "api"), ("SOURCES_API_PORT", "8080")])
        Globals.zero).2 = Outcome.error "configuration missing: Kafka host" ∧
    (ParseConfig (envInput [("SOURCES_API_HOST", "api"), ("SOURCES_API_PORT", "8080")])
        Globals.zero).1.KafkaUrl = Globals.zero.KafkaUrl ∧
    (ParseConfig (envInput [("SOURCES_API_HOST", "api"), ("SOURCES_API_PORT", "8080")])
        Globals.zero).1.Port = Globals.zero.Port :=
  ⟨by decide,
    (error_leaves_state (envInput [("SOURCES_API_HOST", "api"), ("SOURCES_API_PORT", "8080")])
      Globals.zero "configuration missing: Kafka host" (by decide)).1.2.2.1,
    (error_leaves_state (envInput [("SOURCES_API_HOST", "api"), ("SOURCES_API_PORT", "8080")])
      Globals.zero "configuration missing: Kafka host" (by decide)).1.2.2.2⟩

/-- C8 at its failing input: in platform mode a "sources-api" dependency with an empty hostname
and port 0 is accepted; `ParseConfig` returns no error and the two Sources API URLs are built
from the empty hostname and the zero port. -/
theorem platform_accepts_empty_dependency :
    (ParseConfig (clowderInput [⟨"sources-api", "", 0⟩] [⟨"kafka1", some 9092⟩] [])
        Globals.zero).2 = Outcome.ok ∧
    (ParseConfig (clowderInput [⟨"sources-api", "", 0⟩] [⟨"kafka1", some 9092⟩] [])
        Globals.zero).1.SourcesApiHealthUrl = "http://:0/health" ∧
    (ParseConfig (clowderInput [⟨"sources-api", "", 0⟩] [⟨"kafka1", some 9092⟩] [])
        Globals.zero).1.SourcesApiUrl = "http://:0/api/sources/v3.1" := by
  decide

/-- C9 at its failing input: after a successful call in platform mode with broker
(kafka1, 9092), `KafkaUrl` is "kafka1:9092" while `KafkaHost` is still empty and `KafkaPort`
is still 0. -/
theorem kafka_host_port_not_populated :
    (ParseConfig (clowderInput [⟨"sources-api", "svc", 443⟩] [⟨"kafka1", some 9092⟩] [])
        Globals.zero).2 = Outcome.ok ∧
    (ParseConfig (clowderInput [⟨"sources-api", "svc", 443⟩] [⟨"kafka1", some 9092⟩] [])
        Globals.zero).1.KafkaUrl = "kafka1:9092" ∧
    (ParseConfig (clowderInput [⟨"sources-api", "svc", 443⟩] [⟨"kafka1", some 9092⟩] [])
        Globals.zero).1.KafkaHost = "" ∧
    (ParseConfig (clowderInput [⟨"sources-api", "svc", 443⟩] [⟨"kafka1", some 9092⟩] [])
        Globals.zero).1.KafkaPort = 0 := by
  decide

/-- C10 at its failing input: in platform mode with a "sources-api" dependency and an empty
broker list, `ParseConfig` returns neither success nor an error: indexing the broker list
stops it with an out-of-range index. -/
theorem platform_empty_brokers_out_of_range :
    (ParseConfig (clowderInput [⟨"sources-api", "svc", 443⟩] [] []) Globals.zero).2
      = Outcome.runtimePanic "runtime error: index out of range [0] with length 0" := by
  decide

end Config
